import Mathlib

/-!
Verification of the name-athlete session coordination and submission
deduplication engine, shallowly embedded from the Python backend
(`models.py`, `session_manager.py`, `validation.py`, `events.py`).

Timestamps are modelled as natural numbers of seconds.  Python `dict`s are
modelled as insertion-ordered association lists with dict update semantics,
Python `set`s as duplicate-free insertion lists, and Python truthiness of
optional strings is modelled explicitly.  External network calls (Wikidata
search, SPARQL verification, label lookup, the rapidfuzz similarity score)
are modelled as oracle functions supplied through environment records; the
pure dispatch logic around them is transcribed from the source.
-/

namespace NameAthlete

/-- Python truthiness of an optional string: `None` and `""` are falsy. -/
def truthyS : Option String → Bool
  | some s => s ≠ ""
  | none => false

/-- Python `x or default` for an optional string `x`. -/
def pyOr (o : Option String) (d : String) : String :=
  match o with
  | some s => if s = "" then d else s
  | none => d

/-- Association-list lookup, modelling Python `dict.get`. -/
def lookup {α : Type} : List (String × α) → String → Option α
  | [], _ => none
  | p :: rest, k => if p.1 = k then some p.2 else lookup rest k

/-- Association-list update, modelling Python `d[k] = v`: replaces the value
at the first occurrence of the key in place, else appends. -/
def setKey {α : Type} : List (String × α) → String → α → List (String × α)
  | [], k, v => [(k, v)]
  | p :: rest, k, v => if p.1 = k then (k, v) :: rest else p :: setKey rest k v

/-- Association-list deletion, modelling Python `del d[k]`. -/
def delKey {α : Type} : List (String × α) → String → List (String × α)
  | [], _ => []
  | p :: rest, k => if p.1 = k then delKey rest k else p :: delKey rest k

/-- Set insertion, modelling Python `set.add` on a duplicate-free list. -/
def setAdd (l : List String) (x : String) : List String :=
  if x ∈ l then l else l ++ [x]

/-! ### Data model (`models.py`) -/

/-- `models.Athlete`. -/
structure Athlete where
  name : String
  normalized_name : String
  sport : String
  sport_display : Option String
  submitted_by : String
  submitted_at : Nat
  validated : Bool
  entity_id : Option String
  hint : Option String
  canonical_name : Option String
deriving DecidableEq

/-- `models.RejectedSubmission`. -/
structure RejectedSubmission where
  name : String
  sport : String
  username : String
  reason : String
  submitted_at : Nat
deriving DecidableEq

/-- `models.DisconnectedUser`. -/
structure DisconnectedUser where
  disconnected_at : Nat
  submissions_count : Nat
deriving DecidableEq

/-- `models.Session`. -/
structure Session where
  code : String
  status : String
  created_at : Nat
  started_at : Option Nat
  ends_at : Option Nat
  host_username : Option String
  athletes : List Athlete
  athlete_names : List String
  athlete_entity_ids : List String
  connected_users : List (String × String)
  disconnected_users : List (String × DisconnectedUser)
  rejected_submissions : List RejectedSubmission
  is_paused : Bool
  paused_at : Option Nat
  time_remaining_at_pause : Option Nat
deriving DecidableEq

/-- A fresh session record with the given code and status and all other
fields at their `models.py` defaults. -/
def baseSession (code status : String) : Session :=
  ⟨code, status, 0, none, none, none, [], [], [], [], [], [], false, none, none⟩

/-- The in-memory session store `session_manager.sessions`, as an
insertion-ordered map from code to session. -/
abbrev Store := List (String × Session)

/-! ### Session manager (`session_manager.py`) -/

/-- `session_manager.get_session`. -/
def get_session (store : Store) (code : String) : Option Session :=
  lookup store code

/-- Store update helper: mutating the session object held under a code. -/
def setSession (store : Store) (code : String) (s : Session) : Store :=
  setKey store code s

/-- `session_manager.start_session` (fixed duration: 2 hours = 7200 s). -/
def start_session (now : Nat) (store : Store) (code : String) : Store × Bool :=
  match get_session store code with
  | none => (store, false)
  | some s =>
    if s.status ≠ "waiting" then (store, false)
    else
      (setSession store code
        { s with status := "active", started_at := some now, ends_at := some (now + 7200) },
       true)

/-- `session_manager.end_session`. -/
def end_session (store : Store) (code : String) : Store × Bool :=
  match get_session store code with
  | none => (store, false)
  | some s => (setSession store code { s with status := "completed" }, true)

/-- `session_manager.add_athlete`.  Note the source has no status guard:
the athlete is appended whatever the session status. -/
def add_athlete (store : Store) (code : String) (athlete : Athlete) : Store × Bool :=
  match get_session store code with
  | none => (store, false)
  | some s =>
    let s1 := { s with
      athletes := s.athletes ++ [athlete],
      athlete_names := setAdd s.athlete_names athlete.normalized_name }
    let s2 :=
      if truthyS athlete.entity_id then
        { s1 with athlete_entity_ids := setAdd s1.athlete_entity_ids (athlete.entity_id.getD "") }
      else s1
    (setSession store code s2, true)

/-- `session_manager.add_rejected_submission`. -/
def add_rejected_submission (now : Nat) (store : Store)
    (code name sport username reason : String) : Store × Bool :=
  match get_session store code with
  | none => (store, false)
  | some s =>
    (setSession store code
      { s with rejected_submissions := s.rejected_submissions ++ [⟨name, sport, username, reason, now⟩] },
     true)

/-- `session_manager.is_duplicate`: the resolved entity identifier, when
truthy, is authoritative; the normalized name is consulted only otherwise. -/
def is_duplicate (store : Store) (code : String) (normalized_name : String)
    (entity_id : Option String) : Bool :=
  match get_session store code with
  | none => false
  | some s =>
    if truthyS entity_id then
      decide ((entity_id.getD "") ∈ s.athlete_entity_ids)
    else
      decide (normalized_name ∈ s.athlete_names)

/-- `session_manager.get_non_duplicate_entity_ids`. -/
def get_non_duplicate_entity_ids (store : Store) (code : String)
    (entity_ids : List String) : List String :=
  match get_session store code with
  | none => entity_ids
  | some s => entity_ids.filter (fun eid => decide (eid ∉ s.athlete_entity_ids))

/-- `session_manager.are_all_entity_ids_duplicates`. -/
def are_all_entity_ids_duplicates (store : Store) (code : String)
    (entity_ids : List String) : Bool :=
  if entity_ids.isEmpty then false
  else (get_non_duplicate_entity_ids store code entity_ids).isEmpty

/-- `session_manager.add_connected_user`: removes every stale transport id
mapped to the same username, clears any grace-period disconnect record for
the username, then installs the new mapping. -/
def add_connected_user (store : Store) (code socket_id username : String) : Store × Bool :=
  match get_session store code with
  | none => (store, false)
  | some s =>
    let cleaned := s.connected_users.filter (fun p => decide (p.2 ≠ username))
    let dusers := delKey s.disconnected_users username
    (setSession store code
      { s with connected_users := setKey cleaned socket_id username,
               disconnected_users := dusers },
     true)

/-- `session_manager.remove_connected_user`. -/
def remove_connected_user (now : Nat) (store : Store) (code socket_id : String) :
    Store × Option String :=
  match get_session store code with
  | none => (store, none)
  | some s =>
    match lookup s.connected_users socket_id with
    | none => (store, none)
    | some username =>
      let cnt := (s.athletes.filter (fun a => decide (a.submitted_by = username))).length
      (setSession store code
        { s with connected_users := delKey s.connected_users socket_id,
                 disconnected_users := setKey s.disconnected_users username ⟨now, cnt⟩ },
       some username)

/-- `session_manager.is_username_taken_by_other`. -/
def is_username_taken_by_other (store : Store) (code username requesting_sid : String) : Bool :=
  match get_session store code with
  | none => false
  | some s =>
    s.connected_users.any (fun p => decide (p.2 = username) && decide (p.1 ≠ requesting_sid))

/-- `session_manager.can_reclaim_username` (grace window: 5 min = 300 s). -/
def can_reclaim_username (now : Nat) (store : Store) (code username : String) : Bool :=
  match get_session store code with
  | none => false
  | some s =>
    match lookup s.disconnected_users username with
    | none => false
    | some d => decide (now - d.disconnected_at < 300)

/-- `session_manager.pause_session`: records `max(ends_at - now, 0)` and
flips the paused flag; fails on missing, non-active or already-paused
sessions.  (`ends_at` is always set on an active session started through
`start_session`; the unset case is mapped to a failure result.) -/
def pause_session (now : Nat) (store : Store) (code : String) : Store × Option Nat :=
  match get_session store code with
  | none => (store, none)
  | some s =>
    if s.status ≠ "active" ∨ s.is_paused then (store, none)
    else
      match s.ends_at with
      | none => (store, none)
      | some e =>
        let remaining := ((e : Int) - (now : Int)).toNat
        (setSession store code
          { s with is_paused := true, paused_at := some now,
                   time_remaining_at_pause := some remaining },
         some remaining)

/-- `session_manager.resume_session`: sets `ends_at := now + stored
remaining` and clears the pause state; fails unless active and paused. -/
def resume_session (now : Nat) (store : Store) (code : String) : Store × Option Nat :=
  match get_session store code with
  | none => (store, none)
  | some s =>
    if s.status ≠ "active" ∨ ¬ s.is_paused then (store, none)
    else
      let remaining := s.time_remaining_at_pause.getD 0
      (setSession store code
        { s with ends_at := some (now + remaining), is_paused := false,
                 paused_at := none, time_remaining_at_pause := none },
       some (now + remaining))

/-! ### Entity resolution (`validation.py`) -/

/-- One result row of the Wikidata `wbsearchentities` call
(`_fetch_wikidata_search`): entity id and free-text description. -/
structure SearchResult where
  id : String
  description : String
deriving DecidableEq

/-- Bool-valued substring test on character lists, modelling Python
`needle in haystack` on strings. -/
def strContains (needle : List Char) : List Char → Bool
  | [] => needle.isEmpty
  | c :: t => needle.isPrefixOf (c :: t) || strContains needle t

/-- Character-level lowercasing, modelling Python `str.lower` on the ASCII
range the sources exercise. -/
def lowerChars (l : List Char) : List Char := l.map Char.toLower

/-- Tail worker for `pyWordCount`: scans characters tracking whether the
scanner is inside a word. -/
def wordCountAux : List Char → Bool → Nat → Nat
  | [], _, n => n
  | c :: rest, inWord, n =>
    if c.isWhitespace then wordCountAux rest false n
    else if inWord then wordCountAux rest true n
    else wordCountAux rest true (n + 1)

/-- Number of whitespace-separated words, modelling Python
`len(name.strip().split())`. -/
def pyWordCount (s : String) : Nat := wordCountAux s.data false 0

/-- Oracles for the network-facing calls of `validation.py`: the search API,
the batch SPARQL sport verification (returning verified entity ids in result
order), the any-sport athlete check, the entity label lookup, and the
rapidfuzz-backed `check_name_similarity`.  The dispatch logic around these
calls is transcribed from the source below. -/
structure ResolverEnv where
  fetch_search : String → Nat → List SearchResult
  verify_sport : List String → String → List String
  is_athlete : String → Bool × List String
  entity_label : String → Option String
  similar : String → String → Bool

/-- `validation.search_wikidata_person`: progressive search (k=10 for
single-word names, else k=5 with one expansion retry), batch sport
verification, and the hint-based disambiguation logic.  Returns
`(entity_id, multiple_matches_found, all_matching_entity_ids)`. -/
def search_wikidata_person (env : ResolverEnv) (name sport_qid : String)
    (hint : Option String) : Option String × Bool × List String :=
  let is_single_word := pyWordCount name = 1
  let initial_limit := if is_single_word then 10 else 5
  let search_results := env.fetch_search name initial_limit
  if search_results.isEmpty then (none, false, [])
  else
    let candidate_ids := (search_results.map (fun r => r.id)).filter (fun i => decide (i ≠ ""))
    if candidate_ids.isEmpty then (none, false, [])
    else
      let verified0 := env.verify_sport candidate_ids sport_qid
      let expand := verified0.isEmpty && initial_limit < 10
      let search_results := if expand then env.fetch_search name 10 else search_results
      let candidate_ids :=
        if expand then (search_results.map (fun r => r.id)).filter (fun i => decide (i ≠ ""))
        else candidate_ids
      let verified := if expand then env.verify_sport candidate_ids sport_qid else verified0
      if verified.isEmpty then (candidate_ids.head?, false, [])
      else
        let verified_ids := verified
        if verified_ids.length > 1 then
          let hint_result :
              Option (Option String × Bool × List String) :=
            match hint with
            | some h =>
              if h = "" then none
              else
                let hint_lower := lowerChars h.data
                let hint_matches :=
                  (search_results.filter (fun r =>
                    decide (r.id ∈ verified_ids) &&
                    strContains hint_lower (lowerChars r.description.data))).map (fun r => r.id)
                if hint_matches.length = 1 then some (hint_matches.head?, false, verified_ids)
                else if hint_matches.length > 1 then some (hint_matches.head?, true, hint_matches)
                else none
            | none => none
          match hint_result with
          | some res => res
          | none => (verified_ids.head?, true, verified_ids)
        else (verified_ids.head?, false, verified_ids)

/-- The 8-tuple returned by `validation.validate_athlete_full`. -/
structure ValidationResult where
  is_valid : Bool
  error : Option String
  validated_sports : Option (List String)
  api_succeeded : Bool
  entity_id : Option String
  multiple_matches : Bool
  canonical_name : Option String
  all_matching_ids : List String
deriving DecidableEq

/-- `validation.validate_athlete_full`: search, any-sport fallback check,
disambiguation dispatch, canonical label fetch, name-similarity gate.
`slabel` models `sports_config.get_sport_label`. -/
def validate_athlete_full (env : ResolverEnv) (slabel : String → Option String)
    (name sport_qid : String) (hint : Option String) : ValidationResult :=
  let res := search_wikidata_person env name sport_qid hint
  let person_id := res.1
  let multiple_matches := res.2.1
  let all_matches := res.2.2
  if ¬ truthyS person_id then
    ⟨false, some "invalid_athlete", none, true, none, false, none, []⟩
  else
    let pid := person_id.getD ""
    if all_matches.isEmpty then
      let ath := env.is_athlete pid
      if ¬ ath.1 then
        ⟨false, some "invalid_athlete", none, true, none, false, none, []⟩
      else
        ⟨false, some "wrong_sport", some ath.2, true, none, false, none, []⟩
    else if multiple_matches ∧ ¬ truthyS hint then
      ⟨false, some "disambiguation_required", none, true, some pid, true, none, all_matches⟩
    else
      let canonical_name := env.entity_label pid
      if truthyS canonical_name ∧ ¬ env.similar name (canonical_name.getD "") then
        ⟨false, some "invalid_athlete", none, true, none, false, none, []⟩
      else
        ⟨true, none, some [pyOr (slabel sport_qid) sport_qid], true, some pid, false,
         canonical_name, []⟩

/-! ### Socket event handlers (`events.py`) -/

/-- One emission through the transport layer: event name, target room (a
transport id for direct replies, the session code for broadcasts), and the
payload fields the claims are about. -/
structure Emitted where
  event : String
  room : String
  error : Option String
  message : String
  requires_hint : Bool
deriving DecidableEq

/-- A direct `submission_error` reply to the submitting transport id. -/
def submissionError (sid tag msg : String) (rh : Bool) : Emitted :=
  ⟨"submission_error", sid, some tag, msg, rh⟩

/-- `events.verify_sender`. -/
def verify_sender (store : Store) (code sid username : String) : Bool :=
  match get_session store code with
  | none => false
  | some s => decide (lookup s.connected_users sid = some username)

/-- `events.handle_join_session` as a store transformer, up to the payloads
of the success events (state queries such as the leaderboard are pure reads
and are omitted from the emission payloads). -/
def handle_join_session (now : Nat) (store : Store) (sid : String)
    (code0 username0 : Option String) : Store × List Emitted :=
  if ¬ (truthyS code0 ∧ truthyS username0) then
    (store, [⟨"error", sid, none, "Missing code or username", false⟩])
  else
    let code := code0.getD ""
    let username := username0.getD ""
    match get_session store code with
    | none => (store, [⟨"error", sid, none, "Session not found", false⟩])
    | some session =>
      if session.status = "completed" then
        (store, [⟨"error", sid, none, "This session has ended", false⟩])
      else
        let is_reconnecting := can_reclaim_username now store code username
        if ¬ is_reconnecting ∧ is_username_taken_by_other store code username sid then
          (store, [⟨"error", sid, none, "Username already in use", false⟩])
        else
          let store1 := (add_connected_user store code sid username).1
          (store1,
           [⟨"session_joined", sid, none, "", false⟩,
            ⟨"user_joined", code, none, "", false⟩])

/-- Modelled from the spec: `get_session_lock` is called by the submission
pipeline in `events.py` but is absent from the session-manager source.
Spec 4.3 step 7 specifies entering the session's exclusive per-session lock
for the duplicate-check-and-commit critical section; in this sequential
embedding acquiring the lock always succeeds and is a no-op on state. -/
def get_session_lock (_code : String) : Unit := ()

/-- The pure collaborators of `handle_submit_athlete`:
`sports_config.is_valid_sport_qid`, `sports_config.get_sport_label`,
`validation.sanitize_athlete_name` and `validation.normalize_name` (the
latter two depend on regex/unidecode machinery and are treated as
oracles). -/
structure SubmitEnv where
  valid_sport : String → Bool
  sport_label : String → Option String
  sanitize : String → Bool × String × Option String
  normalize : String → String

/-- The apostrophe character used by the source's f-string messages. -/
def apostr : String := String.mk [Char.ofNat 39]

/-- Message of the all-candidates-taken duplicate rejection. -/
def msgAllTaken (athlete_name sport_display : String) : String :=
  "All athletes named " ++ apostr ++ athlete_name ++ apostr ++ " in " ++ sport_display ++
    " have already been submitted"

/-- Message of the some-candidates-taken disambiguation rejection. -/
def msgDisambPartial (athlete_name sport_display : String) : String :=
  "Multiple athletes found with the name " ++ apostr ++ athlete_name ++ apostr ++ " in " ++
    sport_display ++
    ". Some have already been submitted. Please add a hint (team, country, or birth year) to identify a different player."

/-- Message of the plain disambiguation rejection. -/
def msgDisamb (athlete_name sport_display : String) : String :=
  "Multiple athletes found with the name " ++ apostr ++ athlete_name ++ apostr ++ " in " ++
    sport_display ++
    ". Please add a hint (team, country, or birth year) to identify the specific player."

/-- The `error_messages` dictionary of the invalid-result branch. -/
def invalidMessage (error : Option String) (athlete_name sport_display : String) : String :=
  if error = some "invalid_athlete" then
    athlete_name ++ " could not be verified as a real athlete"
  else if error = some "wrong_sport" then
    "No athlete found with that name for " ++ sport_display
  else if error = some "validation_failed" then
    "Validation service unavailable. Please try again."
  else "Validation failed"

/-- `events.handle_submit_athlete` as a store transformer.  `vres` is the
result of the awaited `validate_athlete_full` call; the per-session lock is
the spec-modelled `get_session_lock` above, so the critical section runs
unconditionally in this sequential embedding. -/
def handle_submit_athlete (env : SubmitEnv) (now : Nat) (store : Store) (sid : String)
    (code0 athlete_name0 sport0 username0 hint : Option String)
    (vres : ValidationResult) : Store × List Emitted :=
  if ¬ (truthyS code0 ∧ truthyS athlete_name0 ∧ truthyS sport0 ∧ truthyS username0) then
    (store, [submissionError sid "missing_fields" "Missing required fields" false])
  else
    let code := code0.getD ""
    let raw_name := athlete_name0.getD ""
    let sport := sport0.getD ""
    let username := username0.getD ""
    if ¬ verify_sender store code sid username then
      (store, [submissionError sid "auth_failed" "Authentication failed" false])
    else if ¬ env.valid_sport sport then
      (store,
       [submissionError sid "invalid_sport"
          "Invalid sport selection. Please select a valid sport." false])
    else
      let sport_display := pyOr (env.sport_label sport) sport
      let sanitized := env.sanitize raw_name
      if ¬ sanitized.1 then
        let store1 :=
          (add_rejected_submission now store code raw_name sport username "invalid_input").1
        (store1,
         [submissionError sid "invalid_input" (pyOr sanitized.2.2 "Invalid athlete name") false])
      else
        let athlete_name := sanitized.2.1
        match get_session store code with
        | none => (store, [submissionError sid "session_not_found" "Session not found" false])
        | some session =>
          if session.status ≠ "active" then
            (store, [submissionError sid "game_not_active" "Game is not active" false])
          else if session.is_paused then
            (store,
             [submissionError sid "game_paused"
                "Game is paused. Wait for the host to resume." false])
          else
            let normalized := env.normalize athlete_name
            if vres.error = some "disambiguation_required" ∧ vres.multiple_matches then
              let non_duplicate_ids :=
                get_non_duplicate_entity_ids store code vres.all_matching_ids
              if non_duplicate_ids.length = 0 then
                let store1 :=
                  (add_rejected_submission now store code athlete_name sport username
                    "duplicate").1
                (store1,
                 [submissionError sid "duplicate"
                    (msgAllTaken athlete_name sport_display) false])
              else if non_duplicate_ids.length < vres.all_matching_ids.length then
                (store,
                 [submissionError sid "disambiguation_required"
                    (msgDisambPartial athlete_name sport_display) true])
              else
                (store,
                 [submissionError sid "disambiguation_required"
                    (msgDisamb athlete_name sport_display) true])
            else
              let _lock := get_session_lock code
              if truthyS vres.entity_id ∧ is_duplicate store code normalized vres.entity_id then
                let store1 :=
                  (add_rejected_submission now store code athlete_name sport username
                    "duplicate").1
                let display_name := pyOr vres.canonical_name athlete_name
                (store1,
                 [submissionError sid "duplicate"
                    (display_name ++ " has already been submitted") false])
              else if ¬ truthyS vres.entity_id ∧ is_duplicate store code normalized none then
                let store1 :=
                  (add_rejected_submission now store code athlete_name sport username
                    "duplicate").1
                (store1,
                 [submissionError sid "duplicate"
                    (athlete_name ++ " has already been submitted") false])
              else if ¬ vres.is_valid then
                let store1 :=
                  (add_rejected_submission now store code athlete_name sport username
                    (pyOr vres.error "unknown")).1
                (store1,
                 [⟨"submission_error", sid, vres.error,
                    invalidMessage vres.error athlete_name sport_display, false⟩])
              else
                let display_name := pyOr vres.canonical_name athlete_name
                let athlete : Athlete :=
                  ⟨display_name, normalized, sport, some sport_display, username, now, true,
                   vres.entity_id, hint, vres.canonical_name⟩
                let store1 := (add_athlete store code athlete).1
                (store1,
                 [⟨"athlete_added", code, none, "", false⟩,
                  ⟨"leaderboard_update", code, none, "", false⟩])

/-! ### Map and set lemmas -/

theorem lookup_setKey_self {α : Type} (l : List (String × α)) (k : String) (v : α) :
    lookup (setKey l k v) k = some v := by
  induction l with
  | nil => simp [setKey, lookup]
  | cons p t ih =>
    by_cases h : p.1 = k
    · simp [setKey, h, lookup]
    · simp [setKey, h, lookup, ih]

theorem lookup_setKey_ne {α : Type} (l : List (String × α)) (k k' : String) (v : α)
    (h : k' ≠ k) : lookup (setKey l k v) k' = lookup l k' := by
  induction l with
  | nil => simp [setKey, lookup, Ne.symm h]
  | cons p t ih =>
    by_cases hp : p.1 = k
    · simp [setKey, hp, lookup, Ne.symm h]
    · simp [setKey, hp, lookup, ih]

theorem mem_setKey_sub {α : Type} (l : List (String × α)) (k : String) (v : α)
    (p : String × α) (h : p ∈ setKey l k v) : p = (k, v) ∨ p ∈ l := by
  induction l with
  | nil => simp [setKey] at h; left; exact h
  | cons q t ih =>
    by_cases hq : q.1 = k
    · simp [setKey, hq] at h
      rcases h with h | h
      · left; simpa using h
      · right; exact List.mem_cons_of_mem _ h
    · simp [setKey, hq] at h
      rcases h with h | h
      · right; simp [h]
      · rcases ih h with h' | h'
        · left; exact h'
        · right; exact List.mem_cons_of_mem _ h'

theorem mem_setKey_self {α : Type} (l : List (String × α)) (k : String) (v : α) :
    (k, v) ∈ setKey l k v := by
  induction l with
  | nil => simp [setKey]
  | cons q t ih =>
    by_cases hq : q.1 = k
    · simp [setKey, hq]
    · simp [setKey, hq]
      right; exact ih

theorem mem_setKey_of_ne {α : Type} {l : List (String × α)} {k : String} {v : α}
    {p : String × α} (hp : p ∈ l) (h : p.1 ≠ k) : p ∈ setKey l k v := by
  induction l with
  | nil => cases hp
  | cons q t ih =>
    rcases List.mem_cons.mp hp with rfl | hp'
    · by_cases hq : p.1 = k
      · exact absurd hq h
      · simp [setKey, hq]
    · by_cases hq : q.1 = k
      · simp [setKey, hq]
        right; exact hp'
      · simp [setKey, hq]
        right; exact ih hp'

theorem lookup_delKey_self {α : Type} (l : List (String × α)) (k : String) :
    lookup (delKey l k) k = none := by
  induction l with
  | nil => simp [delKey, lookup]
  | cons p t ih =>
    by_cases h : p.1 = k
    · simpa [delKey, h] using ih
    · simp [delKey, h, lookup, ih]

theorem mem_setAdd_iff (l : List String) (x y : String) :
    y ∈ setAdd l x ↔ y ∈ l ∨ y = x := by
  unfold setAdd
  by_cases h : x ∈ l
  · simp only [if_pos h]
    constructor
    · exact fun hy => Or.inl hy
    · rintro (hy | rfl) <;> [exact hy; exact h]
  · simp [if_neg h]

theorem get_session_setSession_self (store : Store) (code : String) (s : Session) :
    get_session (setSession store code s) code = some s :=
  lookup_setKey_self store code s

/-! ### Claim theorems -/

/-- Claim C9: for a session code absent from the store, `is_duplicate`
returns false for any name and entity identifier, and
`get_non_duplicate_entity_ids` returns its input candidate list unchanged —
every candidate is reported as still available rather than failing. -/
theorem missing_session_duplicate_queries (store : Store) (code : String)
    (h : get_session store code = none) :
    (∀ n eid, is_duplicate store code n eid = false) ∧
    (∀ ids, get_non_duplicate_entity_ids store code ids = ids) := by
  refine ⟨fun n eid => ?_, fun ids => ?_⟩
  · simp [is_duplicate, h]
  · simp [get_non_duplicate_entity_ids, h]

/-- Witness for C9 at the empty store and a concrete query. -/
theorem missing_session_duplicate_queries_witness :
    is_duplicate [] "XYZ123" "lionel messi" (some "Q615") = false ∧
    get_non_duplicate_entity_ids [] "XYZ123" ["Q615", "Q3572"] = ["Q615", "Q3572"] :=
  ⟨(missing_session_duplicate_queries [] "XYZ123" rfl).1 "lionel messi" (some "Q615"),
   (missing_session_duplicate_queries [] "XYZ123" rfl).2 ["Q615", "Q3572"]⟩

/-- Claim C2: with a truthy resolved entity identifier the duplicate
decision is exactly membership of that identifier in the session's
`athlete_entity_ids`, independent of either name argument; after committing
an athlete with identifier `e1`, any resubmission resolving to `e1` is a
duplicate whatever its spelling, while an identifier `e2 ≠ e1` is not a
duplicate even when queried with the very normalized name just recorded;
the normalized-name set is consulted only when no identifier is given. -/
theorem entity_id_authoritative (store : Store) (code : String) (s : Session)
    (hs : get_session store code = some s)
    (a : Athlete) (e1 : String) (he1 : e1 ≠ "") (hae : a.entity_id = some e1) :
    (∀ m : String, is_duplicate (add_athlete store code a).1 code m (some e1) = true) ∧
    (∀ e2 : String, e2 ≠ "" → e2 ≠ e1 → e2 ∉ s.athlete_entity_ids →
      is_duplicate (add_athlete store code a).1 code a.normalized_name (some e2) = false) ∧
    (∀ m eid, eid ≠ "" →
      is_duplicate store code m (some eid) = decide (eid ∈ s.athlete_entity_ids)) ∧
    (∀ m, is_duplicate store code m none = decide (m ∈ s.athlete_names)) := by
  have hstep : (add_athlete store code a).1 =
      setSession store code
        { s with athletes := s.athletes ++ [a],
                 athlete_names := setAdd s.athlete_names a.normalized_name,
                 athlete_entity_ids := setAdd s.athlete_entity_ids e1 } := by
    simp [add_athlete, hs, hae, truthyS, he1]
  refine ⟨fun m => ?_, fun e2 he2 hne hnotin => ?_, fun m eid heid => ?_, fun m => ?_⟩
  · rw [hstep]
    simp [is_duplicate, get_session_setSession_self, truthyS, he1, mem_setAdd_iff]
  · rw [hstep]
    simp [is_duplicate, get_session_setSession_self, truthyS, he2, mem_setAdd_iff, hnotin, hne]
  · simp [is_duplicate, hs, truthyS, heid]
  · simp [is_duplicate, hs, truthyS]

/-- Claim C7: pausing an active, unpaused session stores and returns
`max(ends_at - now, 0)` and flips the paused flag; resuming the paused
session sets `ends_at := now2 + stored remainder` and clears the pause
state, so the countdown remaining immediately after resume equals the value
captured at pause exactly (tolerance 0 ≤ 2 time units); pause on a
non-active or already-paused session and resume on a non-paused session
return none and change nothing. -/
theorem pause_resume_roundtrip (now now2 : Nat) (store : Store) (code : String)
    (s : Session) (e : Nat)
    (hs : get_session store code = some s) (hact : s.status = "active")
    (hp : s.is_paused = false) (he : s.ends_at = some e) :
    (pause_session now store code =
      (setSession store code
        { s with is_paused := true, paused_at := some now,
                 time_remaining_at_pause := some ((e : Int) - (now : Int)).toNat },
       some ((e : Int) - (now : Int)).toNat)) ∧
    ((((e : Int) - (now : Int)).toNat : Int) = max ((e : Int) - (now : Int)) 0) ∧
    (resume_session now2 (pause_session now store code).1 code =
      (setSession (pause_session now store code).1 code
        { s with ends_at := some (now2 + ((e : Int) - (now : Int)).toNat),
                 is_paused := false, paused_at := none, time_remaining_at_pause := none },
       some (now2 + ((e : Int) - (now : Int)).toNat))) ∧
    ((now2 + ((e : Int) - (now : Int)).toNat) - now2 = ((e : Int) - (now : Int)).toNat) ∧
    (∀ st c s', get_session st c = some s' → (s'.status ≠ "active" ∨ s'.is_paused = true) →
      pause_session now st c = (st, none)) ∧
    (∀ st c s', get_session st c = some s' → s'.is_paused = false →
      resume_session now st c = (st, none)) := by
  have hpause : pause_session now store code =
      (setSession store code
        { s with is_paused := true, paused_at := some now,
                 time_remaining_at_pause := some ((e : Int) - (now : Int)).toNat },
       some ((e : Int) - (now : Int)).toNat) := by
    simp [pause_session, hs, hact, hp, he]
  refine ⟨hpause, ?_, ?_, by omega, ?_, ?_⟩
  · rcases le_or_lt (now : Int) (e : Int) with h | h
    · rw [max_eq_left (by omega)]
      omega
    · rw [max_eq_right (by omega)]
      omega
  · rw [hpause]
    simp only [resume_session, get_session_setSession_self, hact]
    simp [Option.getD]
  · intro st c s' hs' hcond
    rcases hcond with hcond | hcond
    · simp [pause_session, hs', hcond]
    · simp [pause_session, hs', hcond]
  · intro st c s' hs' hcond
    simp [resume_session, hs', hcond]

/-- Claim C8: `can_reclaim_username` is true exactly when the session exists
and the name has a disconnect record younger than the 5-minute (300 s)
grace window; and connecting a user to an existing session removes every
transport identifier mapped to the same name, clears the grace-period
disconnect record for that name, and installs the new mapping. -/
theorem connect_and_reclaim (now : Nat) (store : Store) (code sid uname : String)
    (s : Session) (hs : get_session store code = some s) :
    (∀ st c u, can_reclaim_username now st c u = true ↔
      ∃ s' d, get_session st c = some s' ∧ lookup s'.disconnected_users u = some d ∧
        now - d.disconnected_at < 300) ∧
    (∃ s', get_session (add_connected_user store code sid uname).1 code = some s' ∧
      lookup s'.connected_users sid = some uname ∧
      (sid, uname) ∈ s'.connected_users ∧
      (∀ p ∈ s'.connected_users, p.2 = uname → p.1 = sid) ∧
      lookup s'.disconnected_users uname = none ∧
      (∀ p ∈ s.connected_users, p.2 ≠ uname → p.1 ≠ sid → p ∈ s'.connected_users)) := by
  constructor
  · intro st c u
    unfold can_reclaim_username
    cases hst : get_session st c with
    | none =>
      simp only [Bool.false_eq_true, false_iff]
      rintro ⟨s', d, hs', _, _⟩
      exact Option.noConfusion hs'
    | some s' =>
      cases hd : lookup s'.disconnected_users u with
      | none =>
        dsimp only
        rw [hd]
        simp only [Bool.false_eq_true, false_iff]
        rintro ⟨s'', d, hs'', hd', _⟩
        have hss : s' = s'' := by injection hs''
        subst hss
        rw [hd] at hd'
        exact Option.noConfusion hd'
      | some d =>
        dsimp only
        rw [hd]
        simp only [decide_eq_true_eq]
        constructor
        · intro hlt; exact ⟨s', d, rfl, hd, hlt⟩
        · rintro ⟨s'', d', hs'', hd', hlt⟩
          have hss : s' = s'' := by injection hs''
          subst hss
          rw [hd] at hd'
          have hdd : d = d' := by injection hd'
          subst hdd
          exact hlt
  · have hstep : (add_connected_user store code sid uname).1 =
        setSession store code
          { s with
            connected_users :=
              setKey (s.connected_users.filter (fun p => decide (p.2 ≠ uname))) sid uname,
            disconnected_users := delKey s.disconnected_users uname } := by
      simp [add_connected_user, hs]
    refine ⟨_, by rw [hstep]; exact get_session_setSession_self _ _ _, ?_, ?_, ?_, ?_, ?_⟩
    · exact lookup_setKey_self _ _ _
    · exact mem_setKey_self _ _ _
    · intro p hp hval
      rcases mem_setKey_sub _ _ _ _ hp with h | h
      · rw [h]
      · have := List.of_mem_filter h
        simp only [decide_eq_true_eq] at this
        exact absurd hval this
    · exact lookup_delKey_self _ _
    · intro p hp hval hkey
      apply mem_setKey_of_ne
      · exact List.mem_filter.mpr ⟨hp, by simpa using hval⟩
      · exact hkey

/-- Claim C10: a join request naming a completed session is rejected with an
error sent only to the requesting transport identifier, and every piece of
session state is left unchanged — no connection mapping, no cleared
disconnect record, no broadcast to the room. -/
theorem join_completed_rejected (now : Nat) (store : Store) (sid code uname : String)
    (s : Session) (hc : code ≠ "") (hu : uname ≠ "")
    (hs : get_session store code = some s) (hcomp : s.status = "completed") :
    handle_join_session now store sid (some code) (some uname) =
      (store, [⟨"error", sid, none, "This session has ended", false⟩]) ∧
    (handle_join_session now store sid (some code) (some uname)).1 = store ∧
    (∀ ev ∈ (handle_join_session now store sid (some code) (some uname)).2,
      ev.room = sid) := by
  have h : handle_join_session now store sid (some code) (some uname) =
      (store, [⟨"error", sid, none, "This session has ended", false⟩]) := by
    simp [handle_join_session, truthyS, hc, hu, hs, hcomp]
  refine ⟨h, by rw [h], ?_⟩
  rw [h]
  intro ev hev
  simp only [List.mem_singleton] at hev
  rw [hev]

/-! ### Concrete sample data for witnesses and counterexamples -/

/-- A completed sample session. -/
def sampleCompleted : Session := baseSession "AAAAAA" "completed"

/-- A store holding only the completed sample session. -/
def storeCompleted : Store := [("AAAAAA", sampleCompleted)]

/-- An active, unpaused sample session with one connected user. -/
def sampleActive : Session :=
  { baseSession "BBBBBB" "active" with
    started_at := some 0, ends_at := some 7200,
    host_username := some "alice", connected_users := [("sid1", "alice")] }

/-- A store holding only the active sample session. -/
def storeActive : Store := [("BBBBBB", sampleActive)]

/-- A sample accepted athlete. -/
def sampleAth : Athlete :=
  ⟨"Lionel Messi", "lionel messi", "Q2736", some "soccer", "alice", 50, true,
   some "Q615", none, some "Lionel Messi"⟩

/-- Sample pipeline collaborators: soccer is the only valid sport,
sanitation passes names through, normalization lowercases. -/
def sampleEnv : SubmitEnv :=
  ⟨fun q => decide (q = "Q2736"),
   fun q => if q = "Q2736" then some "soccer" else none,
   fun n => (true, n, none),
   fun n => String.mk (lowerChars n.data)⟩

/-- Claim C5 counterexample: `add_athlete` and `add_connected_user` applied
to a completed session are not no-ops — both succeed and mutate the store. -/
theorem completed_session_mutates_cx :
    get_session storeCompleted "AAAAAA" = some sampleCompleted ∧
    sampleCompleted.status = "completed" ∧
    (add_athlete storeCompleted "AAAAAA" sampleAth).2 = true ∧
    (add_athlete storeCompleted "AAAAAA" sampleAth).1 ≠ storeCompleted ∧
    (add_connected_user storeCompleted "AAAAAA" "sid9" "bob").2 = true ∧
    (add_connected_user storeCompleted "AAAAAA" "sid9" "bob").1 ≠ storeCompleted := by
  decide

/-- `pause_session` either fails leaving the store untouched or flips the
paused flag on an active, unpaused session with a set end time. -/
theorem pause_session_cases (now : Nat) (st : Store) (c : String) :
    pause_session now st c = (st, none) ∨
    ∃ s e, get_session st c = some s ∧ s.status = "active" ∧ s.is_paused = false ∧
      s.ends_at = some e ∧
      pause_session now st c =
        (setSession st c
          { s with is_paused := true, paused_at := some now,
                   time_remaining_at_pause := some ((e : Int) - (now : Int)).toNat },
         some ((e : Int) - (now : Int)).toNat) := by
  cases hs : get_session st c with
  | none => left; simp [pause_session, hs]
  | some s =>
    by_cases hcond : s.status ≠ "active" ∨ s.is_paused = true
    · left
      rcases hcond with h | h
      · simp [pause_session, hs, h]
      · simp [pause_session, hs, h]
    · push_neg at hcond
      obtain ⟨hact, hp⟩ := hcond
      cases he : s.ends_at with
      | none => left; simp [pause_session, hs, hact, hp, he]
      | some e =>
        right
        refine ⟨s, e, rfl, hact, by simp at hp; exact hp, he, ?_⟩
        simp [pause_session, hs, hact, hp, he]

/-- `resume_session` either fails leaving the store untouched or restores
an active, paused session with the stored remainder. -/
theorem resume_session_cases (now : Nat) (st : Store) (c : String) :
    resume_session now st c = (st, none) ∨
    ∃ s, get_session st c = some s ∧ s.status = "active" ∧ s.is_paused = true ∧
      resume_session now st c =
        (setSession st c
          { s with ends_at := some (now + s.time_remaining_at_pause.getD 0),
                   is_paused := false, paused_at := none, time_remaining_at_pause := none },
         some (now + s.time_remaining_at_pause.getD 0)) := by
  cases hs : get_session st c with
  | none => left; simp [resume_session, hs]
  | some s =>
    by_cases hcond : s.status ≠ "active" ∨ ¬ s.is_paused = true
    · left
      rcases hcond with h | h
      · simp [resume_session, hs, h]
      · simp [resume_session, hs, h]
    · push_neg at hcond
      obtain ⟨hact, hp⟩ := hcond
      right
      refine ⟨s, rfl, hact, hp, ?_⟩
      simp [resume_session, hs, hact, hp]

/-- Claim C5, amended: the status field only advances along
waiting → active → completed; `start_session` fails and changes nothing
unless the status is waiting (and on a missing code); `pause_session` fails
and changes nothing when the session is not active or already paused;
`start`, `pause` and `resume` applied to a completed session fail and
change nothing, and `end_session` keeps a completed session completed;
`pause` and `resume` never change the status; but `add_athlete` is not
status-guarded: applied to a completed session it still succeeds and
appends the athlete, mutating the store. -/
theorem status_machine_amended :
    (∀ now st c s, get_session st c = some s → s.status ≠ "waiting" →
      start_session now st c = (st, false)) ∧
    (∀ now st c, get_session st c = none → start_session now st c = (st, false)) ∧
    (∀ now st c s, get_session st c = some s →
      (s.status ≠ "active" ∨ s.is_paused = true) → pause_session now st c = (st, none)) ∧
    (∀ now st c s, get_session st c = some s → s.status = "completed" →
      start_session now st c = (st, false) ∧ pause_session now st c = (st, none) ∧
      resume_session now st c = (st, none) ∧
      get_session (end_session st c).1 c = some { s with status := "completed" }) ∧
    (∀ now st c, (start_session now st c).2 = true →
      ∃ s, get_session st c = some s ∧ s.status = "waiting" ∧
        get_session (start_session now st c).1 c =
          some { s with status := "active", started_at := some now,
                        ends_at := some (now + 7200) }) ∧
    (∀ now st c s s2, get_session st c = some s →
      get_session (pause_session now st c).1 c = some s2 → s2.status = s.status) ∧
    (∀ now st c s s2, get_session st c = some s →
      get_session (resume_session now st c).1 c = some s2 → s2.status = s.status) ∧
    (∀ st c s a, get_session st c = some s → s.status = "completed" →
      (add_athlete st c a).2 = true ∧
      (∃ s2, get_session (add_athlete st c a).1 c = some s2 ∧
        s2.athletes = s.athletes ++ [a]) ∧
      (add_athlete st c a).1 ≠ st) := by
  refine ⟨?_, ?_, ?_, ?_, ?_, ?_, ?_, ?_⟩
  · intro now st c s hs hns
    simp [start_session, hs, hns]
  · intro now st c hs
    simp [start_session, hs]
  · intro now st c s hs hcond
    rcases hcond with hcond | hcond
    · simp [pause_session, hs, hcond]
    · simp [pause_session, hs, hcond]
  · intro now st c s hs hcomp
    refine ⟨by simp [start_session, hs, hcomp], by simp [pause_session, hs, hcomp],
      by simp [resume_session, hs, hcomp], ?_⟩
    simp [end_session, hs, get_session_setSession_self]
  · intro now st c hok
    cases hs : get_session st c with
    | none => simp [start_session, hs] at hok
    | some s =>
      by_cases hw : s.status = "waiting"
      · refine ⟨s, rfl, hw, ?_⟩
        simp [start_session, hs, hw, get_session_setSession_self]
      · simp [start_session, hs, hw] at hok
  · intro now st c s s2 hs hs2
    rcases pause_session_cases now st c with h | ⟨s', e, hs', _, _, _, h⟩
    · rw [h] at hs2
      have hs2' : get_session st c = some s2 := hs2
      rw [hs] at hs2'
      have h12 : s = s2 := by injection hs2'
      rw [h12]
    · rw [hs] at hs'
      have hss : s = s' := by injection hs'
      rw [h] at hs2
      have hs2' : get_session (setSession st c
          { s' with is_paused := true, paused_at := some now,
                    time_remaining_at_pause := some ((e : Int) - (now : Int)).toNat }) c =
          some s2 := hs2
      rw [get_session_setSession_self] at hs2'
      have h2 : ({ s' with is_paused := true, paused_at := some now,
                           time_remaining_at_pause := some ((e : Int) - (now : Int)).toNat } :
          Session) = s2 := by injection hs2'
      simp [← h2, hss]
  · intro now st c s s2 hs hs2
    rcases resume_session_cases now st c with h | ⟨s', hs', _, _, h⟩
    · rw [h] at hs2
      have hs2' : get_session st c = some s2 := hs2
      rw [hs] at hs2'
      have h12 : s = s2 := by injection hs2'
      rw [h12]
    · rw [hs] at hs'
      have hss : s = s' := by injection hs'
      rw [h] at hs2
      have hs2' : get_session (setSession st c
          { s' with ends_at := some (now + s'.time_remaining_at_pause.getD 0),
                    is_paused := false, paused_at := none,
                    time_remaining_at_pause := none }) c = some s2 := hs2
      rw [get_session_setSession_self] at hs2'
      have h2 : ({ s' with ends_at := some (now + s'.time_remaining_at_pause.getD 0),
                           is_paused := false, paused_at := none,
                           time_remaining_at_pause := none } : Session) = s2 := by
        injection hs2'
      simp [← h2, hss]
  · intro st c s a hs _hcomp
    have hset : (add_athlete st c a).1 = setSession st c
        (if truthyS a.entity_id then
          { s with athletes := s.athletes ++ [a],
                   athlete_names := setAdd s.athlete_names a.normalized_name,
                   athlete_entity_ids :=
                     setAdd s.athlete_entity_ids (a.entity_id.getD "") }
         else
          { s with athletes := s.athletes ++ [a],
                   athlete_names := setAdd s.athlete_names a.normalized_name }) := by
      by_cases ht : truthyS a.entity_id
      · simp [add_athlete, hs, ht]
      · simp [add_athlete, hs, ht]
    refine ⟨by simp [add_athlete, hs], ?_, ?_⟩
    · refine ⟨_, by rw [hset]; exact get_session_setSession_self _ _ _, ?_⟩
      by_cases ht : truthyS a.entity_id
      · rw [if_pos ht]
      · rw [if_neg ht]
    · intro heq
      have hget : get_session (add_athlete st c a).1 c = get_session st c := by rw [heq]
      rw [hset, get_session_setSession_self, hs] at hget
      have hsa : (if truthyS a.entity_id then
          { s with athletes := s.athletes ++ [a],
                   athlete_names := setAdd s.athlete_names a.normalized_name,
                   athlete_entity_ids :=
                     setAdd s.athlete_entity_ids (a.entity_id.getD "") }
         else
          { s with athletes := s.athletes ++ [a],
                   athlete_names := setAdd s.athlete_names a.normalized_name }) = s := by
        injection hget
      have hlen : s.athletes.length + 1 = s.athletes.length := by
        by_cases ht : truthyS a.entity_id
        · rw [if_pos ht] at hsa
          have := congrArg (fun x => x.athletes.length) hsa
          simp at this
        · rw [if_neg ht] at hsa
          have := congrArg (fun x => x.athletes.length) hsa
          simp at this
      omega

/-- Claim C3: when resolution signals ambiguity (`disambiguation_required`
with `multiple_matches`), the pipeline first filters the candidate set
against the session's accepted entity identifiers — with no reference to the
ordinary duplicate check, which runs later: an empty remainder is rejected
`duplicate` with the all-candidates-taken message; a non-empty proper
remainder is rejected `disambiguation_required` with `requires_hint` and the
some-candidates-taken message; a full remainder is rejected
`disambiguation_required` with `requires_hint` and no such caveat. -/
theorem disambiguation_before_duplicate
    (env : SubmitEnv) (now : Nat) (store : Store)
    (sid code aname sport uname sname : String) (serr hint : Option String)
    (vres : ValidationResult) (s : Session)
    (hc : code ≠ "") (ha : aname ≠ "") (hsp : sport ≠ "") (hu : uname ≠ "")
    (hsess : get_session store code = some s)
    (hauth : lookup s.connected_users sid = some uname)
    (hsport : env.valid_sport sport = true)
    (hsan : env.sanitize aname = (true, sname, serr))
    (hact : s.status = "active") (hpaus : s.is_paused = false)
    (hder : vres.error = some "disambiguation_required")
    (hmul : vres.multiple_matches = true) :
    ((get_non_duplicate_entity_ids store code vres.all_matching_ids).length = 0 →
      handle_submit_athlete env now store sid (some code) (some aname) (some sport)
          (some uname) hint vres =
        ((add_rejected_submission now store code sname sport uname "duplicate").1,
         [submissionError sid "duplicate"
            (msgAllTaken sname (pyOr (env.sport_label sport) sport)) false])) ∧
    ((get_non_duplicate_entity_ids store code vres.all_matching_ids).length ≠ 0 →
      (get_non_duplicate_entity_ids store code vres.all_matching_ids).length <
        vres.all_matching_ids.length →
      handle_submit_athlete env now store sid (some code) (some aname) (some sport)
          (some uname) hint vres =
        (store,
         [submissionError sid "disambiguation_required"
            (msgDisambPartial sname (pyOr (env.sport_label sport) sport)) true])) ∧
    ((get_non_duplicate_entity_ids store code vres.all_matching_ids).length ≠ 0 →
      ¬ (get_non_duplicate_entity_ids store code vres.all_matching_ids).length <
          vres.all_matching_ids.length →
      handle_submit_athlete env now store sid (some code) (some aname) (some sport)
          (some uname) hint vres =
        (store,
         [submissionError sid "disambiguation_required"
            (msgDisamb sname (pyOr (env.sport_label sport) sport)) true])) := by
  refine ⟨fun h0 => ?_, fun h0 hlt => ?_, fun h0 hge => ?_⟩
  · simp [handle_submit_athlete, verify_sender, truthyS, hc, ha, hsp, hu, hsess, hauth,
      hsport, hsan, hact, hpaus, hder, hmul, h0]
  · simp [handle_submit_athlete, verify_sender, truthyS, hc, ha, hsp, hu, hsess, hauth,
      hsport, hsan, hact, hpaus, hder, hmul, h0, hlt]
  · simp [handle_submit_athlete, verify_sender, truthyS, hc, ha, hsp, hu, hsess, hauth,
      hsport, hsan, hact, hpaus, hder, hmul, h0, hge]

/-- A resolution result reporting ambiguity between two candidates. -/
def vresDisamb : ValidationResult :=
  ⟨false, some "disambiguation_required", none, true, some "E2", true, none, ["E2", "E3"]⟩

/-- Claim C6 counterexample: a `disambiguation_required` rejection is
reported to the caller but the session's `rejected_submissions` audit
sequence — indeed the whole store — is left unchanged, so not every domain
rejection is recorded. -/
theorem disambiguation_not_recorded_cx :
    (handle_submit_athlete sampleEnv 60 storeActive "sid1" (some "BBBBBB") (some "Ronaldo")
        (some "Q2736") (some "alice") none vresDisamb).2 =
      [submissionError "sid1" "disambiguation_required" (msgDisamb "Ronaldo" "soccer") true] ∧
    (handle_submit_athlete sampleEnv 60 storeActive "sid1" (some "BBBBBB") (some "Ronaldo")
        (some "Q2736") (some "alice") none vresDisamb).1 = storeActive ∧
    sampleActive.rejected_submissions = [] := by
  decide

/-- Claim C6, amended: rejections tagged `invalid_athlete`, `wrong_sport`
and `duplicate` are both reported to the submitting caller and appended to
the session's `rejected_submissions` audit sequence, but rejections tagged
`disambiguation_required` are reported to the caller only — the audit
sequence and the rest of the store are left unchanged.  (When every
ambiguity candidate is already taken the rejection is tagged `duplicate`
and is recorded.) -/
theorem domain_rejection_audit
    (env : SubmitEnv) (now : Nat) (store : Store)
    (sid code aname sport uname sname : String) (serr hint : Option String) (s : Session)
    (hc : code ≠ "") (ha : aname ≠ "") (hsp : sport ≠ "") (hu : uname ≠ "")
    (hsess : get_session store code = some s)
    (hauth : lookup s.connected_users sid = some uname)
    (hsport : env.valid_sport sport = true)
    (hsan : env.sanitize aname = (true, sname, serr))
    (hact : s.status = "active") (hpaus : s.is_paused = false) :
    (∀ vres : ValidationResult, vres.multiple_matches = false → vres.is_valid = false →
      vres.entity_id = none → env.normalize sname ∉ s.athlete_names →
      (vres.error = some "invalid_athlete" ∨ vres.error = some "wrong_sport") →
      handle_submit_athlete env now store sid (some code) (some aname) (some sport)
          (some uname) hint vres =
        ((add_rejected_submission now store code sname sport uname
            (pyOr vres.error "unknown")).1,
         [⟨"submission_error", sid, vres.error,
            invalidMessage vres.error sname (pyOr (env.sport_label sport) sport), false⟩])) ∧
    (∀ (vres : ValidationResult) (eid : String), vres.multiple_matches = false →
      vres.entity_id = some eid → eid ≠ "" → eid ∈ s.athlete_entity_ids →
      handle_submit_athlete env now store sid (some code) (some aname) (some sport)
          (some uname) hint vres =
        ((add_rejected_submission now store code sname sport uname "duplicate").1,
         [submissionError sid "duplicate"
            (pyOr vres.canonical_name sname ++ " has already been submitted") false])) ∧
    (∀ vres : ValidationResult, vres.multiple_matches = false → vres.entity_id = none →
      env.normalize sname ∈ s.athlete_names →
      handle_submit_athlete env now store sid (some code) (some aname) (some sport)
          (some uname) hint vres =
        ((add_rejected_submission now store code sname sport uname "duplicate").1,
         [submissionError sid "duplicate" (sname ++ " has already been submitted") false])) ∧
    (∀ vres : ValidationResult, vres.error = some "disambiguation_required" →
      vres.multiple_matches = true →
      (get_non_duplicate_entity_ids store code vres.all_matching_ids).length ≠ 0 →
      (handle_submit_athlete env now store sid (some code) (some aname) (some sport)
          (some uname) hint vres).1 = store ∧
      ∃ m, (handle_submit_athlete env now store sid (some code) (some aname) (some sport)
          (some uname) hint vres).2 =
        [submissionError sid "disambiguation_required" m true]) := by
  refine ⟨?_, ?_, ?_, ?_⟩
  · intro vres hmul hval heid hnotname herr
    have hnd : ¬ (vres.error = some "disambiguation_required" ∧ vres.multiple_matches = true) := by
      simp [hmul]
    have hdup : is_duplicate store code (env.normalize sname) none = false := by
      simp [is_duplicate, hsess, truthyS, hnotname]
    rcases herr with herr | herr <;>
      simp [handle_submit_athlete, verify_sender, truthyS, hc, ha, hsp, hu, hsess, hauth,
        hsport, hsan, hact, hpaus, hmul, heid, hval, hdup, herr]
  · intro vres eid hmul heid heidne hmem
    have hdup : is_duplicate store code (env.normalize sname) (some eid) = true := by
      simp [is_duplicate, hsess, truthyS, heidne, hmem]
    simp [handle_submit_athlete, verify_sender, truthyS, hc, ha, hsp, hu, hsess, hauth,
      hsport, hsan, hact, hpaus, hmul, heid, heidne, hdup]
  · intro vres hmul heid hname
    have hdup : is_duplicate store code (env.normalize sname) none = true := by
      simp [is_duplicate, hsess, truthyS, hname]
    simp [handle_submit_athlete, verify_sender, truthyS, hc, ha, hsp, hu, hsess, hauth,
      hsport, hsan, hact, hpaus, hmul, heid, hdup]
  · intro vres herr hmul hnd
    by_cases hlt : (get_non_duplicate_entity_ids store code vres.all_matching_ids).length <
        vres.all_matching_ids.length
    · refine ⟨?_, msgDisambPartial sname (pyOr (env.sport_label sport) sport), ?_⟩ <;>
        simp [handle_submit_athlete, verify_sender, truthyS, hc, ha, hsp, hu, hsess, hauth,
          hsport, hsan, hact, hpaus, herr, hmul, hnd, hlt]
    · refine ⟨?_, msgDisamb sname (pyOr (env.sport_label sport) sport), ?_⟩ <;>
        simp [handle_submit_athlete, verify_sender, truthyS, hc, ha, hsp, hu, hsess, hauth,
          hsport, hsan, hact, hpaus, herr, hmul, hnd, hlt]

/-- Claim C1: a submission to an active, unpaused session that passes the
field-presence, sender-identity, sport-validity, sanitation and phase
checks, resolves without error to a single entity, and is not a duplicate,
is committed: the pipeline appends an athlete whose stored display name
prefers the resolver's canonical name, adds the normalized name to
`athlete_names` and the entity identifier to `athlete_entity_ids`, leaves
the audit sequence untouched, and reports acceptance (an `athlete_added`
broadcast, no `submission_error`). -/
theorem submit_commit
    (env : SubmitEnv) (now : Nat) (store : Store)
    (sid code aname sport uname sname eid : String) (serr hint : Option String)
    (vres : ValidationResult) (s : Session) (ath : Athlete)
    (hc : code ≠ "") (ha : aname ≠ "") (hsp : sport ≠ "") (hu : uname ≠ "")
    (hsess : get_session store code = some s)
    (hauth : lookup s.connected_users sid = some uname)
    (hsport : env.valid_sport sport = true)
    (hsan : env.sanitize aname = (true, sname, serr))
    (hact : s.status = "active") (hpaus : s.is_paused = false)
    (hval : vres.is_valid = true) (herr : vres.error = none)
    (heid : vres.entity_id = some eid) (heidne : eid ≠ "")
    (hnot : eid ∉ s.athlete_entity_ids)
    (hath : ath = ⟨pyOr vres.canonical_name sname, env.normalize sname, sport,
      some (pyOr (env.sport_label sport) sport), uname, now, true, some eid, hint,
      vres.canonical_name⟩) :
    handle_submit_athlete env now store sid (some code) (some aname) (some sport)
        (some uname) hint vres =
      ((add_athlete store code ath).1,
       [⟨"athlete_added", code, none, "", false⟩,
        ⟨"leaderboard_update", code, none, "", false⟩]) ∧
    (∃ s2, get_session (handle_submit_athlete env now store sid (some code) (some aname)
        (some sport) (some uname) hint vres).1 code = some s2 ∧
      s2.athletes = s.athletes ++ [ath] ∧
      s2.athlete_names = setAdd s.athlete_names (env.normalize sname) ∧
      s2.athlete_entity_ids = setAdd s.athlete_entity_ids eid ∧
      env.normalize sname ∈ s2.athlete_names ∧
      eid ∈ s2.athlete_entity_ids ∧
      s2.rejected_submissions = s.rejected_submissions) ∧
    (∀ ev ∈ (handle_submit_athlete env now store sid (some code) (some aname) (some sport)
        (some uname) hint vres).2, ev.error = none ∧ ev.event ≠ "submission_error") := by
  have hdup : is_duplicate store code (env.normalize sname) (some eid) = false := by
    simp [is_duplicate, hsess, truthyS, heidne, hnot]
  have hmain : handle_submit_athlete env now store sid (some code) (some aname) (some sport)
      (some uname) hint vres =
      ((add_athlete store code ath).1,
       [⟨"athlete_added", code, none, "", false⟩,
        ⟨"leaderboard_update", code, none, "", false⟩]) := by
    rw [hath]
    simp [handle_submit_athlete, verify_sender, truthyS, hc, ha, hsp, hu, hsess, hauth,
      hsport, hsan, hact, hpaus, hval, herr, heid, heidne, hdup]
  have hadd : (add_athlete store code ath).1 =
      setSession store code
        { s with athletes := s.athletes ++ [ath],
                 athlete_names := setAdd s.athlete_names (env.normalize sname),
                 athlete_entity_ids := setAdd s.athlete_entity_ids eid } := by
    simp [add_athlete, hsess, hath, truthyS, heidne]
  refine ⟨hmain, ?_, ?_⟩
  · refine ⟨{ s with athletes := s.athletes ++ [ath],
                     athlete_names := setAdd s.athlete_names (env.normalize sname),
                     athlete_entity_ids := setAdd s.athlete_entity_ids eid },
      ?_, rfl, rfl, rfl, ?_, ?_, rfl⟩
    · rw [hmain]
      dsimp only
      rw [hadd]
      exact get_session_setSession_self _ _ _
    · exact (mem_setAdd_iff _ _ _).mpr (Or.inr rfl)
    · exact (mem_setAdd_iff _ _ _).mpr (Or.inr rfl)
  · rw [hmain]
    intro ev hev
    rcases List.mem_cons.mp hev with rfl | hev'
    · exact ⟨rfl, by simp⟩
    · rcases List.mem_cons.mp hev' with rfl | hev''
      · exact ⟨rfl, by simp⟩
      · cases hev''

/-- Two verified candidates sharing the search string, both matched by the
hint through their descriptions. -/
def cSearch : List SearchResult :=
  [⟨"E2", "Portuguese footballer"⟩, ⟨"E3", "Brazilian footballer"⟩]

/-- A concrete resolver: search always returns the two candidates, sport
verification confirms both, the label lookup finds nothing and similarity
always passes. -/
def cResolver : ResolverEnv :=
  ⟨fun _ _ => cSearch, fun ids _ => ids, fun _ => (true, ["soccer"]), fun _ => none,
   fun _ _ => true⟩

/-- Claim C4 counterexample: with hint "footballer" matching both verified
candidates, `search_wikidata_person` reports the first hint match as still
ambiguous, yet `validate_athlete_full` reports success with that first
candidate — and the pipeline accepts the submission — instead of rejecting
it as ambiguous. -/
theorem hint_multi_match_cx :
    search_wikidata_person cResolver "Ronaldo" "Q2736" (some "footballer") =
      (some "E2", true, ["E2", "E3"]) ∧
    (validate_athlete_full cResolver sampleEnv.sport_label "Ronaldo" "Q2736"
      (some "footballer")).is_valid = true ∧
    (validate_athlete_full cResolver sampleEnv.sport_label "Ronaldo" "Q2736"
      (some "footballer")).entity_id = some "E2" ∧
    ((handle_submit_athlete sampleEnv 60 storeActive "sid1" (some "BBBBBB") (some "Ronaldo")
        (some "Q2736") (some "alice") (some "footballer")
        (validate_athlete_full cResolver sampleEnv.sport_label "Ronaldo" "Q2736"
          (some "footballer"))).2.map (fun ev => ev.event)) =
      ["athlete_added", "leaderboard_update"] := by
  decide

/-- Claim C4, amended: when resolution finds multiple verified candidates
and the supplied hint matches more than one of them, `search_wikidata_person`
returns the first hint match flagged as still ambiguous, but
`validate_athlete_full` consults that flag only when no hint was supplied:
unless the canonical-name similarity gate fails, it reports success with the
first hint match as the resolved entity and the pipeline accepts the
submission as that candidate (subject to the ordinary duplicate check);
rejection as `disambiguation_required` happens only for hintless
submissions. -/
theorem hint_multi_match_amended
    (env : ResolverEnv) (slabel : String → Option String)
    (name sport_qid h pid : String) (ids : List String)
    (hh : h ≠ "")
    (hsearch : search_wikidata_person env name sport_qid (some h) = (some pid, true, ids))
    (hpid : pid ≠ "") (hids : ids ≠ [])
    (hsim : env.entity_label pid = none ∨
      ∃ c, env.entity_label pid = some c ∧ (c = "" ∨ env.similar name c = true)) :
    (validate_athlete_full env slabel name sport_qid (some h)).is_valid = true ∧
    (validate_athlete_full env slabel name sport_qid (some h)).entity_id = some pid ∧
    (validate_athlete_full env slabel name sport_qid (some h)).error = none := by
  have hids' : ids.isEmpty = false := by
    cases ids with
    | nil => exact absurd rfl hids
    | cons a t => rfl
  have hres : validate_athlete_full env slabel name sport_qid (some h) =
      ⟨true, none, some [pyOr (slabel sport_qid) sport_qid], true, some pid, false,
       env.entity_label pid, []⟩ := by
    rcases hsim with hl | ⟨c, hl, hc⟩
    · simp [validate_athlete_full, hsearch, truthyS, hpid, hids', hh, hl]
    · rcases hc with hc | hc
      · simp [validate_athlete_full, hsearch, truthyS, hpid, hids', hh, hl, hc]
      · simp [validate_athlete_full, hsearch, truthyS, hpid, hids', hh, hl, hc]
  rw [hres]
  exact ⟨rfl, rfl, rfl⟩

/-! ### Witnesses at concrete inputs -/

/-- A successful resolution of Messi to entity `Q615`. -/
def vresMessi : ValidationResult :=
  ⟨true, none, some ["soccer"], true, some "Q615", false, some "Lionel Messi", []⟩

/-- The athlete record the commit path builds for `vresMessi`. -/
def athMessi : Athlete :=
  ⟨"Lionel Messi", String.mk (lowerChars "Lionel Messi".data), "Q2736", some "soccer",
   "alice", 60, true, some "Q615", none, some "Lionel Messi"⟩

/-- The active sample session after Messi has been accepted. -/
def sampleActive2 : Session :=
  { sampleActive with athlete_names := ["lionel messi"], athlete_entity_ids := ["Q615"] }

/-- A store holding the session with one accepted entity. -/
def storeActive2 : Store := [("BBBBBB", sampleActive2)]

/-- An active session with a connected user and a recent disconnect record
for "bob". -/
def sampleDisc : Session :=
  { baseSession "CCCCCC" "active" with
    connected_users := [("sidOld", "bob"), ("sid1", "alice")],
    disconnected_users := [("bob", ⟨20, 3⟩)] }

/-- A store holding the disconnect-record session. -/
def storeDisc : Store := [("CCCCCC", sampleDisc)]

/-- Witness for C1: the concrete Messi submission is committed. -/
theorem submit_commit_witness :
    handle_submit_athlete sampleEnv 60 storeActive "sid1" (some "BBBBBB")
        (some "Lionel Messi") (some "Q2736") (some "alice") none vresMessi =
      ((add_athlete storeActive "BBBBBB" athMessi).1,
       [⟨"athlete_added", "BBBBBB", none, "", false⟩,
        ⟨"leaderboard_update", "BBBBBB", none, "", false⟩]) :=
  (submit_commit sampleEnv 60 storeActive "sid1" "BBBBBB" "Lionel Messi" "Q2736" "alice"
    "Lionel Messi" "Q615" none none vresMessi sampleActive athMessi
    (by decide) (by decide) (by decide) (by decide) (by decide) (by decide) (by decide)
    (by decide) (by decide) (by decide) (by decide) (by decide) (by decide) (by decide)
    (by decide) (by decide)).1

/-- Witness for C2 at the concrete store: same entity id duplicate under a
different spelling, distinct entity id accepted under the same name. -/
theorem entity_id_authoritative_witness :
    is_duplicate (add_athlete storeActive "BBBBBB" sampleAth).1 "BBBBBB" "cr7"
      (some "Q615") = true ∧
    is_duplicate (add_athlete storeActive "BBBBBB" sampleAth).1 "BBBBBB" "lionel messi"
      (some "Q11571") = false ∧
    is_duplicate storeActive "BBBBBB" "anything" (some "Q615") =
      decide ("Q615" ∈ sampleActive.athlete_entity_ids) ∧
    is_duplicate storeActive "BBBBBB" "lionel messi" none =
      decide ("lionel messi" ∈ sampleActive.athlete_names) :=
  have h := entity_id_authoritative storeActive "BBBBBB" sampleActive (by decide) sampleAth
    "Q615" (by decide) (by decide)
  ⟨h.1 "cr7", h.2.1 "Q11571" (by decide) (by decide) (by decide),
   h.2.2.1 "anything" "Q615" (by decide), h.2.2.2 "lionel messi"⟩

/-- Witness for C3: ambiguity with all candidates still available is
rejected `disambiguation_required` with the plain message. -/
theorem disambiguation_before_duplicate_witness :
    handle_submit_athlete sampleEnv 60 storeActive "sid1" (some "BBBBBB") (some "Ronaldo")
        (some "Q2736") (some "alice") none vresDisamb =
      (storeActive,
       [submissionError "sid1" "disambiguation_required"
          (msgDisamb "Ronaldo" (pyOr (sampleEnv.sport_label "Q2736") "Q2736")) true]) :=
  (disambiguation_before_duplicate sampleEnv 60 storeActive "sid1" "BBBBBB" "Ronaldo"
    "Q2736" "alice" "Ronaldo" none none vresDisamb sampleActive
    (by decide) (by decide) (by decide) (by decide) (by decide) (by decide) (by decide)
    (by decide) (by decide) (by decide) (by decide) (by decide)).2.2
    (by decide) (by decide)

/-- Witness for C4 (amended) at the concrete resolver. -/
theorem hint_multi_match_amended_witness :
    (validate_athlete_full cResolver sampleEnv.sport_label "Ronaldo" "Q2736"
      (some "footballer")).is_valid = true ∧
    (validate_athlete_full cResolver sampleEnv.sport_label "Ronaldo" "Q2736"
      (some "footballer")).entity_id = some "E2" ∧
    (validate_athlete_full cResolver sampleEnv.sport_label "Ronaldo" "Q2736"
      (some "footballer")).error = none :=
  hint_multi_match_amended cResolver sampleEnv.sport_label "Ronaldo" "Q2736" "footballer"
    "E2" ["E2", "E3"] (by decide) (by decide) (by decide) (by decide) (Or.inl rfl)

/-- Witness for C5 (amended): the three status operations on the concrete
completed session fail and change nothing. -/
theorem status_machine_amended_witness :
    start_session 77 storeCompleted "AAAAAA" = (storeCompleted, false) ∧
    pause_session 77 storeCompleted "AAAAAA" = (storeCompleted, none) ∧
    resume_session 77 storeCompleted "AAAAAA" = (storeCompleted, none) :=
  have h := status_machine_amended.2.2.2.1 77 storeCompleted "AAAAAA" sampleCompleted
    (by decide) (by decide)
  ⟨h.1, h.2.1, h.2.2.1⟩

/-- Witness for C6 (amended): a duplicate rejection at the concrete store
is reported with the canonical name and recorded in the audit sequence. -/
theorem domain_rejection_audit_witness :
    handle_submit_athlete sampleEnv 60 storeActive2 "sid1" (some "BBBBBB") (some "Messi")
        (some "Q2736") (some "alice") none vresMessi =
      ((add_rejected_submission 60 storeActive2 "BBBBBB" "Messi" "Q2736" "alice"
          "duplicate").1,
       [submissionError "sid1" "duplicate"
          (pyOr vresMessi.canonical_name "Messi" ++ " has already been submitted") false]) :=
  (domain_rejection_audit sampleEnv 60 storeActive2 "sid1" "BBBBBB" "Messi" "Q2736" "alice"
    "Messi" none none sampleActive2
    (by decide) (by decide) (by decide) (by decide) (by decide) (by decide) (by decide)
    (by decide) (by decide) (by decide)).2.1 vresMessi "Q615"
    (by decide) (by decide) (by decide) (by decide)

/-- Witness for C7 at the concrete active session: pausing at 100 stores
7100 seconds, resuming at 150 restores a countdown of 7100. -/
theorem pause_resume_roundtrip_witness :
    pause_session 100 storeActive "BBBBBB" =
      (setSession storeActive "BBBBBB"
        { sampleActive with is_paused := true, paused_at := some 100,
                            time_remaining_at_pause := some 7100 },
       some 7100) ∧
    resume_session 150 (pause_session 100 storeActive "BBBBBB").1 "BBBBBB" =
      (setSession (pause_session 100 storeActive "BBBBBB").1 "BBBBBB"
        { sampleActive with ends_at := some 7250, is_paused := false, paused_at := none,
                            time_remaining_at_pause := none },
       some 7250) ∧
    (150 + 7100) - 150 = 7100 :=
  have h := pause_resume_roundtrip 100 150 storeActive "BBBBBB" sampleActive 7200
    (by decide) (by decide) (by decide) (by decide)
  ⟨h.1, h.2.2.1, h.2.2.2.1⟩

/-- Witness for C8: "bob" disconnected at 20 can reclaim his name at 100. -/
theorem connect_and_reclaim_witness :
    can_reclaim_username 100 storeDisc "CCCCCC" "bob" = true :=
  ((connect_and_reclaim 100 storeDisc "CCCCCC" "sidNew" "bob" sampleDisc
    (by decide)).1 storeDisc "CCCCCC" "bob").mpr
    ⟨sampleDisc, ⟨20, 3⟩, by decide, by decide, by decide⟩

/-- Witness for C10: joining the concrete completed session is rejected
with a direct error and no state change. -/
theorem join_completed_rejected_witness :
    handle_join_session 90 storeCompleted "sid7" (some "AAAAAA") (some "carol") =
      (storeCompleted, [⟨"error", "sid7", none, "This session has ended", false⟩]) :=
  (join_completed_rejected 90 storeCompleted "sid7" "AAAAAA" "carol" sampleCompleted
    (by decide) (by decide) (by decide) (by decide)).1

end NameAthlete
